import Mathlib

/-!
Shallow embedding of the ESP32 I2C master driver
(`src/targets/esp32/jshardwareI2c.c`) of Espruino.

The driver is modelled as pure functions over an explicit state:

* `I2CState` carries the per-bus initialized flags kept by the registry
  (`jshIsDeviceInitialised` / `jshSetDeviceInitialised`) together with, for
  each physical controller port, whether an ESP-IDF driver instance is
  currently installed (the controller resource that `i2c_driver_install`
  acquires and `i2c_driver_delete` releases).
* Calls into the ESP-IDF platform (`i2c_driver_delete`, `i2c_param_config`,
  `i2c_driver_install`, and the command-link service
  `i2c_cmd_link_create` / `i2c_master_start` / `i2c_master_write_byte` /
  `i2c_master_write` / `i2c_master_read` / `i2c_master_read_byte` /
  `i2c_master_stop` / `i2c_master_cmd_begin` / `i2c_cmd_link_delete`) are
  recorded as a trace of `HwOp` events.
* The status codes the platform returns are external inputs, supplied in
  `SetupEnv` / `TransEnv`.
* Exceptions raised through `jsExceptionHere` become `JsError` values.

The build is the ESP32 two-port configuration (`ESPR_I2C_COUNT > 1`), so
both `EV_I2C1 -> I2C_NUM_0` and `EV_I2C2 -> I2C_NUM_1` exist.  Pin
resolution (lines 98-100 of the source) only consults external lookup
services and rewrites the transient `JshI2CInfo` value; it has no effect on
the registry, the controller resources, or the emitted I2C traffic, so it
is not given a trace event.
-/

/-- ESP-IDF status code `ESP_OK` (esp_err.h). -/
def ESP_OK : Int := 0

/-- ESP-IDF status code `ESP_FAIL` (esp_err.h). -/
def ESP_FAIL : Int := -1

/-- ESP-IDF status code `ESP_ERR_INVALID_ARG` (esp_err.h, `0x102`). -/
def ESP_ERR_INVALID_ARG : Int := 0x102

/-- ESP-IDF status code `ESP_ERR_TIMEOUT` (esp_err.h, `0x107`). -/
def ESP_ERR_TIMEOUT : Int := 0x107

/-- Source line 25: `#define ACK_CHECK_EN 0x1` — master checks the ack. -/
def ACK_CHECK_EN : Nat := 0x1

/-- Source line 28: `#define ACK_VAL 0x0` — ACK policy for reads. -/
def ACK_VAL : Nat := 0x0

/-- Source line 29: `#define NACK_VAL 0x1` — NACK policy for reads. -/
def NACK_VAL : Nat := 0x1

/-- ESP-IDF `i2c_rw_t.I2C_MASTER_WRITE = 0`. -/
def I2C_MASTER_WRITE : Nat := 0

/-- ESP-IDF `i2c_rw_t.I2C_MASTER_READ = 1`. -/
def I2C_MASTER_READ : Nat := 1

/-- The device identifiers relevant to the driver.  The Espruino
`IOEventFlags` enumeration has many more members; every member other than
`EV_I2C1` and `EV_I2C2` takes the `default` branch of `getI2cFromDevice`,
so they are collapsed into `EV_OTHER`. -/
inductive IOEventFlags where
  | EV_I2C1
  | EV_I2C2
  | EV_OTHER
  deriving DecidableEq, Repr

/-- Source lines 77-85: map a logical device to a physical controller port
(`I2C_NUM_0 = 0`, `I2C_NUM_1 = 1`), or `-1` when unsupported. -/
def getI2cFromDevice : IOEventFlags → Int
  | .EV_I2C1 => 0
  | .EV_I2C2 => 1
  | .EV_OTHER => -1

/-- Driver state: registry initialized flags for the two buses, and whether
an ESP-IDF driver instance (the controller resource) is installed on each
physical port. -/
structure I2CState where
  init1 : Bool
  init2 : Bool
  drv0 : Bool
  drv1 : Bool
  deriving DecidableEq, Repr

/-- Registry query `jshIsDeviceInitialised(device)`. -/
def jshIsDeviceInitialised (st : I2CState) : IOEventFlags → Bool
  | .EV_I2C1 => st.init1
  | .EV_I2C2 => st.init2
  | .EV_OTHER => false

/-- Registry update `jshSetDeviceInitialised(device, isInit)`. -/
def jshSetDeviceInitialised (st : I2CState) (device : IOEventFlags) (b : Bool) : I2CState :=
  match device with
  | .EV_I2C1 => { st with init1 := b }
  | .EV_I2C2 => { st with init2 := b }
  | .EV_OTHER => st

/-- Whether the controller resource for a physical port is held. -/
def driverInstalled (st : I2CState) (port : Int) : Bool :=
  if port = 0 then st.drv0 else if port = 1 then st.drv1 else false

/-- Acquire (`b = true`, `i2c_driver_install`) or release (`b = false`,
`i2c_driver_delete`) the controller resource of a physical port. -/
def setDriver (st : I2CState) (port : Int) (b : Bool) : I2CState :=
  if port = 0 then { st with drv0 := b } else if port = 1 then { st with drv1 := b } else st

/-- Number of controller resources currently held. -/
def resourceCount (st : I2CState) : Nat :=
  (if st.drv0 then 1 else 0) + (if st.drv1 then 1 else 0)

/-- The exceptions the driver raises through `jsExceptionHere`, one
constructor per distinct message in the source. -/
inductive JsError where
  /-- Lines 92 / 144 / 168: only I2C1 and I2C2 are supported. -/
  | unsupportedBus
  /-- Line 125: `jshI2CSetup: Invalid arguments` after `i2c_param_config`
  rejects with `ESP_ERR_INVALID_ARG`. -/
  | invalidConfiguration
  /-- Line 45 (`checkError`, case `ESP_ERR_INVALID_ARG`): parameter error. -/
  | paramError (caller : String)
  /-- Line 49 (`checkError`, case `ESP_FAIL`): slave does not ACK. -/
  | slaveNack (caller : String)
  /-- Line 53 (`checkError`, case `ESP_ERR_TIMEOUT`): bus-busy timeout. -/
  | timeoutBusy (caller : String)
  /-- Line 57 (`checkError`, default case): unknown error code. -/
  | unknownError (caller : String) (code : Int)
  deriving DecidableEq, Repr

/-- The stable error taxonomy of the classifier (spec section 4.5). -/
inductive ErrorClass where
  | Ok
  | InvalidArgument
  | SlaveNack
  | Timeout
  | Unknown (code : Int)
  deriving DecidableEq, Repr

/-- Source lines 41-62, `checkError(caller, ret)`: switch on the raw code,
raising one exception for every non-`ESP_OK` code, and hand `ret` back. -/
def checkError (caller : String) (ret : Int) : List JsError × Int :=
  if ret = ESP_OK then ([], ret)
  else if ret = ESP_ERR_INVALID_ARG then ([JsError.paramError caller], ret)
  else if ret = ESP_FAIL then ([JsError.slaveNack caller], ret)
  else if ret = ESP_ERR_TIMEOUT then ([JsError.timeoutBusy caller], ret)
  else ([JsError.unknownError caller ret], ret)

/-- The branch structure of `checkError` (lines 41-62) read as the error
classifier of spec section 4.5: which taxonomy member each raw platform
status code lands in. -/
def classifyError (ret : Int) : ErrorClass :=
  if ret = ESP_OK then ErrorClass.Ok
  else if ret = ESP_ERR_INVALID_ARG then ErrorClass.InvalidArgument
  else if ret = ESP_FAIL then ErrorClass.SlaveNack
  else if ret = ESP_ERR_TIMEOUT then ErrorClass.Timeout
  else ErrorClass.Unknown ret

/-- One call into the ESP-IDF platform, as recorded in the trace. -/
inductive HwOp where
  | driverDelete (port : Int)
  | paramConfig (port : Int)
  | driverInstall (port : Int)
  | cmdLinkCreate
  | masterStart
  | masterWriteByte (value : Nat) (ackCheck : Nat)
  | masterWrite (bytes : List Nat) (ackCheck : Nat)
  | masterRead (count : Nat) (ackVal : Nat)
  | masterReadByte (ackVal : Nat)
  | masterStop
  | cmdBegin (port : Int)
  | cmdLinkDelete
  deriving DecidableEq, Repr

/-- Result of one public driver operation: the state after the call, the
trace of platform calls it made, and the exceptions it raised. -/
structure I2COutcome where
  state : I2CState
  ops : List HwOp
  errors : List JsError
  deriving DecidableEq, Repr

/-- External inputs to `jshI2CSetup`: the status codes `i2c_param_config`
and `i2c_driver_install` return. -/
structure SetupEnv where
  paramConfigRet : Int
  driverInstallRet : Int
  deriving DecidableEq, Repr

/-- External input to `jshI2CWrite` / `jshI2CRead`: the status code
`i2c_master_cmd_begin` returns. -/
structure TransEnv where
  cmdBeginRet : Int
  deriving DecidableEq, Repr

/-- Source lines 89-135, `jshI2CSetup(device, info)`:
reject unsupported devices (lines 91-94); if the registry reports the
device initialized, delete the existing driver — without touching the
registry flag (lines 95-97); run `i2c_param_config` and bail out with an
exception when it rejects with `ESP_ERR_INVALID_ARG` (lines 123-127); run
`i2c_driver_install`, and on `ESP_OK` mark the device initialized, else
route the code through `checkError` (lines 128-134). -/
def jshI2CSetup (env : SetupEnv) (st : I2CState) (device : IOEventFlags) : I2COutcome :=
  let port := getI2cFromDevice device
  if port = -1 then
    ⟨st, [], [JsError.unsupportedBus]⟩
  else
    let td : I2CState × List HwOp :=
      if jshIsDeviceInitialised st device then
        (setDriver st port false, [HwOp.driverDelete port])
      else
        (st, [])
    let ops1 := td.2 ++ [HwOp.paramConfig port]
    if env.paramConfigRet = ESP_ERR_INVALID_ARG then
      ⟨td.1, ops1, [JsError.invalidConfiguration]⟩
    else
      let ops2 := ops1 ++ [HwOp.driverInstall port]
      if env.driverInstallRet = ESP_OK then
        ⟨jshSetDeviceInitialised (setDriver td.1 port true) device true, ops2, []⟩
      else
        ⟨td.1, ops2, (checkError "jshI2CSetup" env.driverInstallRet).1⟩

/-- Source lines 64-75, `I2CReset()`: for each bus the registry reports
initialized, delete its driver and clear its flag; returns the new state
and the platform calls made. -/
def I2CReset (st : I2CState) : I2CState × List HwOp :=
  let a : I2CState × List HwOp :=
    if jshIsDeviceInitialised st .EV_I2C1 then
      (jshSetDeviceInitialised (setDriver st 0 false) .EV_I2C1 false, [HwOp.driverDelete 0])
    else
      (st, [])
  if jshIsDeviceInitialised a.1 .EV_I2C2 then
    (jshSetDeviceInitialised (setDriver a.1 1 false) .EV_I2C2 false,
      a.2 ++ [HwOp.driverDelete 1])
  else
    a

/-- Source lines 137-156, `jshI2CWrite(device, address, nBytes, data, sendStop)`:
reject unsupported devices; otherwise create a command link, queue
Start, the address byte `address << 1 | I2C_MASTER_WRITE` under ack check,
the data block under ack check, Stop when `sendStop`, submit the link and
delete it, and route the submit result through `checkError`.  The byte
buffer and its length `nBytes` are represented by the list `data`.  The
registry state is never consulted and never changed. -/
def jshI2CWrite (env : TransEnv) (st : I2CState) (device : IOEventFlags)
    (address : Nat) (data : List Nat) (sendStop : Bool) : I2COutcome :=
  let port := getI2cFromDevice device
  if port = -1 then
    ⟨st, [], [JsError.unsupportedBus]⟩
  else
    let ops :=
      [HwOp.cmdLinkCreate, HwOp.masterStart,
        HwOp.masterWriteByte ((address <<< 1) ||| I2C_MASTER_WRITE) ACK_CHECK_EN,
        HwOp.masterWrite data ACK_CHECK_EN]
      ++ (if sendStop then [HwOp.masterStop] else [])
      ++ [HwOp.cmdBegin port, HwOp.cmdLinkDelete]
    ⟨st, ops, (checkError "jshI2CWrite" env.cmdBeginRet).1⟩

/-- Source lines 158-183, `jshI2CRead(device, address, nBytes, data, sendStop)`:
return immediately when `nBytes <= 0` (lines 163-165, before any other
check); reject unsupported devices; otherwise create a command link, queue
Start, the address byte `address << 1 | I2C_MASTER_READ` under ack check,
when `nBytes > 1` a block read of `nBytes - 1` bytes under `ACK_VAL`, one
final byte read under `NACK_VAL`, Stop when `sendStop`, submit the link and
delete it, and route the submit result through `checkError`.  The registry
state is never consulted and never changed. -/
def jshI2CRead (env : TransEnv) (st : I2CState) (device : IOEventFlags)
    (address : Nat) (nBytes : Int) (sendStop : Bool) : I2COutcome :=
  if nBytes ≤ 0 then
    ⟨st, [], []⟩
  else
    let port := getI2cFromDevice device
    if port = -1 then
      ⟨st, [], [JsError.unsupportedBus]⟩
    else
      let ops :=
        [HwOp.cmdLinkCreate, HwOp.masterStart,
          HwOp.masterWriteByte ((address <<< 1) ||| I2C_MASTER_READ) ACK_CHECK_EN]
        ++ (if nBytes > 1 then [HwOp.masterRead (nBytes - 1).toNat ACK_VAL] else [])
        ++ [HwOp.masterReadByte NACK_VAL]
        ++ (if sendStop then [HwOp.masterStop] else [])
        ++ [HwOp.cmdBegin port, HwOp.cmdLinkDelete]
      ⟨st, ops, (checkError "jshI2CRead" env.cmdBeginRet).1⟩

/-- The all-clear starting state: nothing initialized, no resources held. -/
def st0 : I2CState := ⟨false, false, false, false⟩

/-- A state in which bus 1 is initialized and holds its controller. -/
def stInit1 : I2CState := ⟨true, false, true, false⟩

/-- A setup environment whose programming step succeeds everywhere. -/
def envOK : SetupEnv := ⟨ESP_OK, ESP_OK⟩

/-- A setup environment whose `i2c_param_config` rejects with
`ESP_ERR_INVALID_ARG`. -/
def envIA : SetupEnv := ⟨ESP_ERR_INVALID_ARG, ESP_OK⟩

/-- A transaction environment whose submit returns `ESP_OK`. -/
def tenvOK : TransEnv := ⟨ESP_OK⟩

/-- C7: for every bus, address and sendStop flag, a read with count 0
returns success with zero bytes produced, builds no transaction and issues
zero hardware operations. -/
theorem read_zero_count_noop (env : TransEnv) (st : I2CState) (device : IOEventFlags)
    (address : Nat) (sendStop : Bool) :
    jshI2CRead env st device address 0 sendStop = ⟨st, [], []⟩ := rfl

/-- C10: for every address and sendStop flag, a read with count <= 0
returns with no error raised even when the bus identifier is unsupported,
because the zero-count short-circuit runs before the bus-validity check;
no UnsupportedBus (or any other) error is reported. -/
theorem read_nonpositive_count_short_circuit (env : TransEnv) (st : I2CState)
    (device : IOEventFlags) (address : Nat) (sendStop : Bool) (n : Int) (h : n ≤ 0) :
    jshI2CRead env st device address n sendStop = ⟨st, [], []⟩ := by
  unfold jshI2CRead
  rw [if_pos h]

/-- Witness for C10 at an unsupported device and a negative count. -/
theorem read_nonpositive_count_short_circuit_witness :
    jshI2CRead tenvOK st0 .EV_OTHER 0x3C (-2) true = ⟨st0, [], []⟩ :=
  read_nonpositive_count_short_circuit tenvOK st0 .EV_OTHER 0x3C true (-2) (by decide)

/-- C8: for every bus identifier that does not map to a supported
controller, configure fails with the unsupported-bus error and performs no
side effect: the state is unchanged and no platform call is made. -/
theorem setup_unsupported_no_side_effect (env : SetupEnv) (st : I2CState)
    (device : IOEventFlags) (h : getI2cFromDevice device = -1) :
    jshI2CSetup env st device = ⟨st, [], [JsError.unsupportedBus]⟩ := by
  simp [jshI2CSetup, h]

/-- Witness for C8 at the unsupported device. -/
theorem setup_unsupported_no_side_effect_witness :
    jshI2CSetup envOK stInit1 .EV_OTHER = ⟨stInit1, [], [JsError.unsupportedBus]⟩ :=
  setup_unsupported_no_side_effect envOK stInit1 .EV_OTHER (by decide)

/-- C9: reset tears down every bus marked initialized (deleting its driver
and clearing its flag), leaves every bus not marked initialized untouched,
and afterwards no bus is marked initialized. -/
theorem reset_tears_down_initialized (st : I2CState) :
    jshIsDeviceInitialised (I2CReset st).1 .EV_I2C1 = false ∧
    jshIsDeviceInitialised (I2CReset st).1 .EV_I2C2 = false ∧
    (I2CReset st).1.drv0 = (if st.init1 then false else st.drv0) ∧
    (I2CReset st).1.drv1 = (if st.init2 then false else st.drv1) ∧
    (I2CReset st).2 = (if st.init1 then [HwOp.driverDelete 0] else [])
      ++ (if st.init2 then [HwOp.driverDelete 1] else []) := by
  obtain ⟨i1, i2, d0, d1⟩ := st
  cases i1 <;> cases i2 <;> cases d0 <;> cases d1 <;> decide

/-- C6: the error classifier is a total function on raw platform codes:
every code lands in exactly one taxonomy member, each recognized code in
its member, and every unrecognized code in Unknown rather than being
dropped. -/
theorem classifyError_total (ret : Int) :
    (∃! c : ErrorClass, classifyError ret = c) ∧
    classifyError ESP_OK = ErrorClass.Ok ∧
    classifyError ESP_ERR_INVALID_ARG = ErrorClass.InvalidArgument ∧
    classifyError ESP_FAIL = ErrorClass.SlaveNack ∧
    classifyError ESP_ERR_TIMEOUT = ErrorClass.Timeout ∧
    (ret ≠ ESP_OK → ret ≠ ESP_ERR_INVALID_ARG → ret ≠ ESP_FAIL → ret ≠ ESP_ERR_TIMEOUT →
      classifyError ret = ErrorClass.Unknown ret) := by
  refine ⟨⟨classifyError ret, rfl, fun c hc => hc.symm⟩,
    by decide, by decide, by decide, by decide, ?_⟩
  intro h1 h2 h3 h4
  unfold classifyError
  rw [if_neg h1, if_neg h2, if_neg h3, if_neg h4]

/-- Witness for C6 at the unrecognized code 999. -/
theorem classifyError_total_witness : classifyError 999 = ErrorClass.Unknown 999 :=
  (classifyError_total 999).2.2.2.2.2 (by decide) (by decide) (by decide) (by decide)

/-- C1: for every address, count >= 1 and sendStop flag, the read operation
builds Start, the address byte `address << 1 ||| I2C_MASTER_READ` under ack
check, exactly when count > 1 a block read of count - 1 bytes under ACK,
always exactly one final byte read under NACK, and Stop iff sendStop
(framed by the command-link create / submit / delete calls). -/
theorem read_command_sequence (env : TransEnv) (st : I2CState) (device : IOEventFlags)
    (address : Nat) (count : Int) (sendStop : Bool)
    (hdev : getI2cFromDevice device ≠ -1) (hcount : 1 ≤ count) :
    (jshI2CRead env st device address count sendStop).ops =
      [HwOp.cmdLinkCreate, HwOp.masterStart,
        HwOp.masterWriteByte ((address <<< 1) ||| I2C_MASTER_READ) ACK_CHECK_EN]
      ++ (if count > 1 then [HwOp.masterRead (count - 1).toNat ACK_VAL] else [])
      ++ [HwOp.masterReadByte NACK_VAL]
      ++ (if sendStop then [HwOp.masterStop] else [])
      ++ [HwOp.cmdBegin (getI2cFromDevice device), HwOp.cmdLinkDelete] := by
  have h0 : ¬ (count ≤ 0) := by omega
  simp [jshI2CRead, h0, hdev]

/-- Witness for C1 at count 5 on bus 1 without a trailing Stop. -/
theorem read_command_sequence_witness :
    (jshI2CRead tenvOK st0 .EV_I2C1 0x3C 5 false).ops =
      [HwOp.cmdLinkCreate, HwOp.masterStart,
        HwOp.masterWriteByte ((0x3C <<< 1) ||| I2C_MASTER_READ) ACK_CHECK_EN]
      ++ (if (5 : Int) > 1 then [HwOp.masterRead ((5 : Int) - 1).toNat ACK_VAL] else [])
      ++ [HwOp.masterReadByte NACK_VAL]
      ++ (if false then [HwOp.masterStop] else [])
      ++ [HwOp.cmdBegin (getI2cFromDevice .EV_I2C1), HwOp.cmdLinkDelete] :=
  read_command_sequence tenvOK st0 .EV_I2C1 0x3C 5 false (by decide) (by decide)

/-- C2: for every address, byte sequence and sendStop flag, the write
operation builds Start, the address byte `address << 1 ||| I2C_MASTER_WRITE`
under ack check, the data block under ack check, and Stop iff sendStop
(framed by the command-link create / submit / delete calls). -/
theorem write_command_sequence (env : TransEnv) (st : I2CState) (device : IOEventFlags)
    (address : Nat) (data : List Nat) (sendStop : Bool)
    (hdev : getI2cFromDevice device ≠ -1) :
    (jshI2CWrite env st device address data sendStop).ops =
      [HwOp.cmdLinkCreate, HwOp.masterStart,
        HwOp.masterWriteByte ((address <<< 1) ||| I2C_MASTER_WRITE) ACK_CHECK_EN,
        HwOp.masterWrite data ACK_CHECK_EN]
      ++ (if sendStop then [HwOp.masterStop] else [])
      ++ [HwOp.cmdBegin (getI2cFromDevice device), HwOp.cmdLinkDelete] := by
  simp [jshI2CWrite, hdev]

/-- Witness for C2 at the spec example bytes [0x10, 0x20] with a Stop. -/
theorem write_command_sequence_witness :
    (jshI2CWrite tenvOK st0 .EV_I2C1 0x3C [0x10, 0x20] true).ops =
      [HwOp.cmdLinkCreate, HwOp.masterStart,
        HwOp.masterWriteByte ((0x3C <<< 1) ||| I2C_MASTER_WRITE) ACK_CHECK_EN,
        HwOp.masterWrite [0x10, 0x20] ACK_CHECK_EN]
      ++ (if true then [HwOp.masterStop] else [])
      ++ [HwOp.cmdBegin (getI2cFromDevice .EV_I2C1), HwOp.cmdLinkDelete] :=
  write_command_sequence tenvOK st0 .EV_I2C1 0x3C [0x10, 0x20] true (by decide)

/-- C3 counterexample: configure bus 1 while it is already initialized,
with the programming step rejecting with invalid-argument; the claim says
the bus is left marked uninitialized, but the registry flag is still set
(lines 95-97 delete the driver without clearing the flag, and lines
123-127 return without touching the registry). -/
theorem setup_invalid_arg_flag_counterexample :
    ¬ (jshIsDeviceInitialised (jshI2CSetup envIA stInit1 .EV_I2C1).state .EV_I2C1 = false) := by
  decide

/-- C3 amended: on a supported, already-initialized bus, configure releases
the prior controller (driver delete is traced and the resource is no longer
held); when the programming step then rejects with invalid-argument it
fails with the invalid-configuration error, but the registry flag is left
unchanged, so the bus stays marked initialized. -/
theorem setup_invalid_arg_keeps_flag (env : SetupEnv) (st : I2CState)
    (device : IOEventFlags) (hdev : getI2cFromDevice device ≠ -1)
    (hinit : jshIsDeviceInitialised st device = true)
    (hia : env.paramConfigRet = ESP_ERR_INVALID_ARG) :
    (jshI2CSetup env st device).errors = [JsError.invalidConfiguration] ∧
    (jshI2CSetup env st device).ops =
      [HwOp.driverDelete (getI2cFromDevice device),
        HwOp.paramConfig (getI2cFromDevice device)] ∧
    driverInstalled (jshI2CSetup env st device).state (getI2cFromDevice device) = false ∧
    jshIsDeviceInitialised (jshI2CSetup env st device).state device = true := by
  cases device with
  | EV_OTHER => exact absurd rfl hdev
  | EV_I2C1 =>
      simp_all [jshI2CSetup, getI2cFromDevice, jshIsDeviceInitialised, setDriver,
        driverInstalled]
  | EV_I2C2 =>
      simp_all [jshI2CSetup, getI2cFromDevice, jshIsDeviceInitialised, setDriver,
        driverInstalled]

/-- Witness for the amended C3 on bus 1. -/
theorem setup_invalid_arg_keeps_flag_witness :
    (jshI2CSetup envIA stInit1 .EV_I2C1).errors = [JsError.invalidConfiguration] ∧
    (jshI2CSetup envIA stInit1 .EV_I2C1).ops =
      [HwOp.driverDelete (getI2cFromDevice .EV_I2C1),
        HwOp.paramConfig (getI2cFromDevice .EV_I2C1)] ∧
    driverInstalled (jshI2CSetup envIA stInit1 .EV_I2C1).state (getI2cFromDevice .EV_I2C1) = false ∧
    jshIsDeviceInitialised (jshI2CSetup envIA stInit1 .EV_I2C1).state .EV_I2C1 = true :=
  setup_invalid_arg_keeps_flag envIA stInit1 .EV_I2C1 (by decide) (by decide) (by decide)

/-- The state after a successful configure of bus 1 followed by a configure
of bus 1 whose programming step rejects with invalid-argument. -/
def stAfterFailedReconfigure : I2CState :=
  (jshI2CSetup envIA (jshI2CSetup envOK st0 .EV_I2C1).state .EV_I2C1).state

/-- C4 counterexample: after the configure/failing-configure sequence the
registry flag for bus 1 is set but no controller resource is held, so the
flag does not equal actual resource ownership. -/
theorem configure_flag_ownership_counterexample :
    ¬ (jshIsDeviceInitialised stAfterFailedReconfigure .EV_I2C1 = true →
        resourceCount stAfterFailedReconfigure = 1) := by
  decide

/-- C4 amended: two consecutive configure calls hold exactly as many
controller resources as a single configure (no leak), and after a configure
whose programming and installation steps both succeed the configured bus is
marked initialized and holds its controller resource; however (see the
counterexample) the flag can exceed actual ownership after a configure that
fails on an already-initialized bus. -/
theorem configure_no_leak (env : SetupEnv) (st : I2CState) (device : IOEventFlags)
    (hdev : getI2cFromDevice device ≠ -1) :
    resourceCount (jshI2CSetup env (jshI2CSetup env st device).state device).state =
      resourceCount (jshI2CSetup env st device).state ∧
    (env.paramConfigRet ≠ ESP_ERR_INVALID_ARG → env.driverInstallRet = ESP_OK →
      driverInstalled (jshI2CSetup env st device).state (getI2cFromDevice device) = true ∧
      jshIsDeviceInitialised (jshI2CSetup env st device).state device = true) := by
  cases device with
  | EV_OTHER => exact absurd rfl hdev
  | EV_I2C1 =>
      obtain ⟨i1, i2, d0, d1⟩ := st
      by_cases hp : env.paramConfigRet = ESP_ERR_INVALID_ARG <;>
        by_cases hi : env.driverInstallRet = ESP_OK <;>
          cases i1 <;> cases i2 <;> cases d0 <;> cases d1 <;>
            simp [jshI2CSetup, getI2cFromDevice, resourceCount, setDriver,
              jshSetDeviceInitialised, jshIsDeviceInitialised, driverInstalled, hp, hi]
  | EV_I2C2 =>
      obtain ⟨i1, i2, d0, d1⟩ := st
      by_cases hp : env.paramConfigRet = ESP_ERR_INVALID_ARG <;>
        by_cases hi : env.driverInstallRet = ESP_OK <;>
          cases i1 <;> cases i2 <;> cases d0 <;> cases d1 <;>
            simp [jshI2CSetup, getI2cFromDevice, resourceCount, setDriver,
              jshSetDeviceInitialised, jshIsDeviceInitialised, driverInstalled, hp, hi]

/-- Witness for the amended C4: a successful reconfigure of an initialized
bus 1 keeps the resource count of a single configure and ends initialized
with its resource held. -/
theorem configure_no_leak_witness :
    resourceCount (jshI2CSetup envOK (jshI2CSetup envOK stInit1 .EV_I2C1).state .EV_I2C1).state =
      resourceCount (jshI2CSetup envOK stInit1 .EV_I2C1).state ∧
    driverInstalled (jshI2CSetup envOK stInit1 .EV_I2C1).state (getI2cFromDevice .EV_I2C1) = true ∧
    jshIsDeviceInitialised (jshI2CSetup envOK stInit1 .EV_I2C1).state .EV_I2C1 = true :=
  ⟨(configure_no_leak envOK stInit1 .EV_I2C1 (by decide)).1,
    (configure_no_leak envOK stInit1 .EV_I2C1 (by decide)).2 (by decide) (by decide)⟩

/-- C5 counterexample: a write attempted on bus 1 while it is uninitialized
(`st0`) does call into the command-link service (the claim says it fails
with BusNotReady and makes no such calls; the source has no initialization
check in `jshI2CWrite` / `jshI2CRead` at all, and with an `ESP_OK` submit
result no error is raised either). -/
theorem transaction_uninitialized_counterexample :
    ¬ (¬ HwOp.cmdLinkCreate ∈ (jshI2CWrite tenvOK st0 .EV_I2C1 0x3C [0x10] true).ops ∧
        (jshI2CWrite tenvOK st0 .EV_I2C1 0x3C [0x10] true).errors ≠ []) := by
  decide

/-- C5 amended: write and read on a supported bus never consult the
registry: the trace and the raised errors are identical whatever the
initialization state, the registry state is passed through unchanged, and
the command-link service is always entered (no BusNotReady rejection
exists). -/
theorem transaction_ignores_initialization (env : TransEnv) (st st2 : I2CState)
    (device : IOEventFlags) (address : Nat) (data : List Nat) (count : Int)
    (sendStop : Bool) (hdev : getI2cFromDevice device ≠ -1) :
    jshI2CWrite env st device address data sendStop =
      { jshI2CWrite env st2 device address data sendStop with state := st } ∧
    HwOp.cmdLinkCreate ∈ (jshI2CWrite env st device address data sendStop).ops ∧
    (1 ≤ count →
      jshI2CRead env st device address count sendStop =
        { jshI2CRead env st2 device address count sendStop with state := st } ∧
      HwOp.cmdLinkCreate ∈ (jshI2CRead env st device address count sendStop).ops) := by
  refine ⟨?_, ?_, fun hc => ⟨?_, ?_⟩⟩
  · simp [jshI2CWrite, hdev]
  · simp [jshI2CWrite, hdev]
  · have h0 : ¬ (count ≤ 0) := by omega
    simp [jshI2CRead, hdev, h0]
  · have h0 : ¬ (count ≤ 0) := by omega
    simp [jshI2CRead, hdev, h0]

/-- Witness for the amended C5: a read of 2 bytes on uninitialized bus 1
enters the command-link service. -/
theorem transaction_ignores_initialization_witness :
    HwOp.cmdLinkCreate ∈ (jshI2CRead tenvOK st0 .EV_I2C1 0x3C 2 true).ops :=
  ((transaction_ignores_initialization tenvOK st0 stInit1 .EV_I2C1 0x3C [0x10] 2 true
    (by decide)).2.2 (by decide)).2
